import Mathlib

/-!
Verification of the Modbus RTU temperature/humidity monitor
(`read_modbus.py`): a shallow embedding of its checksum engine, frame
codec, unit converter, device poller, polling scheduler and telemetry
forwarder, together with theorems settling the specification claims.

Bytes are modelled as `Nat` values below 256; byte strings as `List Nat`.
The scaled decimal values (temperature, humidity) are modelled as `Rat`.
The ambient wall-clock time is passed explicitly as a `Nat` parameter to
the functions that run at some instant; a function that never reads the
clock in the source simply ignores that parameter.
-/

namespace ReadModbus

/-- `FUNCTION_CODE = 0x04` (read input registers), from the configuration
section of `read_modbus.py`. -/
def FUNCTION_CODE : Nat := 0x04

/-- `START_ADDR = 0x0190`, from the configuration section. -/
def START_ADDR : Nat := 0x0190

/-- `NUM_REGISTERS = 0x0002`, from the configuration section. -/
def NUM_REGISTERS : Nat := 0x0002

/-- `DEVICE_IDS = [106, 124, 125, 129]`, from the configuration section. -/
def DEVICE_IDS : List Nat := [106, 124, 125, 129]

/-- One iteration of the inner 8-round loop of `modbus_crc`:
if the low bit is set, shift right by one and XOR with 0xA001,
else shift right by one only. -/
def crcStep (crc : Nat) : Nat :=
  if crc % 2 = 1 then (crc / 2) ^^^ 0xA001 else crc / 2

/-- Processing of one input byte in `modbus_crc`: XOR the byte into the
accumulator, then run `crcStep` eight times. -/
def crcByte (crc b : Nat) : Nat := crcStep^[8] (crc ^^^ b)

/-- The final CRC accumulator of `modbus_crc`: fold `crcByte` over the
input starting from 0xFFFF. -/
def modbusCrcAcc (data : List Nat) : Nat := data.foldl crcByte 0xFFFF

/-- `modbus_crc(data)`: the accumulator emitted as two bytes, low byte
first (`crc.to_bytes(2, byteorder='little')`). -/
def modbus_crc (data : List Nat) : List Nat :=
  [modbusCrcAcc data % 256, modbusCrcAcc data / 256 % 256]

lemma crcStep_lt {c : Nat} (h : c < 65536) : crcStep c < 65536 := by
  unfold crcStep
  split
  · have h1 : c / 2 < 2 ^ 16 := by omega
    have h2 : (0xA001 : Nat) < 2 ^ 16 := by norm_num
    have := Nat.xor_lt_two_pow h1 h2
    omega
  · omega

lemma crcStep_iter_lt {c : Nat} (n : Nat) (h : c < 65536) :
    crcStep^[n] c < 65536 := by
  induction n generalizing c with
  | zero => simpa using h
  | succ k ih =>
    rw [Function.iterate_succ_apply]
    exact ih (crcStep_lt h)

lemma crcByte_lt {c b : Nat} (hc : c < 65536) (hb : b < 256) :
    crcByte c b < 65536 := by
  unfold crcByte
  apply crcStep_iter_lt
  have h1 : c < 2 ^ 16 := by omega
  have h2 : b < 2 ^ 16 := by omega
  have := Nat.xor_lt_two_pow h1 h2
  omega

lemma foldl_crcByte_lt (data : List Nat) :
    ∀ c, c < 65536 → (∀ b ∈ data, b < 256) → data.foldl crcByte c < 65536 := by
  induction data with
  | nil => intro c hc _; simpa using hc
  | cons x xs ih =>
    intro c hc hb
    simp only [List.foldl_cons]
    exact ih _ (crcByte_lt hc (hb x (by simp))) (fun b h => hb b (by simp [h]))

lemma modbusCrcAcc_lt (data : List Nat) (h : ∀ b ∈ data, b < 256) :
    modbusCrcAcc data < 65536 :=
  foldl_crcByte_lt data 0xFFFF (by norm_num) h

/-- C1. For every byte sequence (all bytes < 256), `modbus_crc` returns
exactly 2 bytes, each a valid byte, whose little-endian decoding equals
the CRC-16 accumulator computed by the specified algorithm (init 0xFFFF,
per byte XOR into the accumulator then 8 rounds of shift/XOR-0xA001);
`modbus_crc` of the empty sequence is the bytes 0xFF 0xFF.  Determinism
and totality are intrinsic: `modbus_crc` is a total function. -/
theorem modbus_crc_spec (data : List Nat) (h : ∀ b ∈ data, b < 256) :
    (modbus_crc data).length = 2 ∧
    (modbus_crc data).getD 0 0 + 256 * (modbus_crc data).getD 1 0
      = modbusCrcAcc data ∧
    (∀ b ∈ modbus_crc data, b < 256) ∧
    modbus_crc [] = [0xFF, 0xFF] := by
  have hacc := modbusCrcAcc_lt data h
  refine ⟨rfl, ?_, ?_, by decide⟩
  · simp only [modbus_crc, List.getD]
    simp only [List.get?_eq_getElem?, List.getElem?_cons_zero,
      List.getElem?_cons_succ, Option.getD_some]
    omega
  · intro b hb
    simp only [modbus_crc, List.mem_cons, List.not_mem_nil, or_false] at hb
    rcases hb with hb | hb <;> omega

/-- Witness for C1 at the concrete input `[0x01, 0x04]`. -/
theorem modbus_crc_spec_witness :
    (modbus_crc [0x01, 0x04]).length = 2 ∧ modbus_crc [] = [0xFF, 0xFF] :=
  ⟨(modbus_crc_spec [0x01, 0x04] (by decide)).1,
   (modbus_crc_spec [0x01, 0x04] (by decide)).2.2.2⟩

/-- Python's `n.to_bytes(2, 'big')` for `n < 65536`: high byte, low byte. -/
def toBytesBE2 (n : Nat) : List Nat := [n / 256, n % 256]

/-- The request payload of `read_modbus_data`:
`bytes([device_id, FUNCTION_CODE]) + START_ADDR.to_bytes(2,'big')
 + NUM_REGISTERS.to_bytes(2,'big')`, generalized over the four fields. -/
def encodePayload (dev fc addr cnt : Nat) : List Nat :=
  [dev, fc] ++ toBytesBE2 addr ++ toBytesBE2 cnt

/-- The full request frame: `payload + modbus_crc(payload)`. -/
def encodeRequest (dev fc addr cnt : Nat) : List Nat :=
  encodePayload dev fc addr cnt ++ modbus_crc (encodePayload dev fc addr cnt)

/-- C2. For in-range fields, the encoded frame is payload ++ checksum,
its length is the payload length (6) plus 2, and re-parsing the four
header fields out of the produced bytes returns the original values. -/
theorem encodeRequest_spec (dev fc addr cnt : Nat)
    (_hdev : dev < 256) (_hfc : fc < 256)
    (_haddr : addr < 65536) (_hcnt : cnt < 65536) :
    (encodeRequest dev fc addr cnt).length = (encodePayload dev fc addr cnt).length + 2 ∧
    (encodeRequest dev fc addr cnt).length = 8 ∧
    (encodeRequest dev fc addr cnt).getD 0 0 = dev ∧
    (encodeRequest dev fc addr cnt).getD 1 0 = fc ∧
    (encodeRequest dev fc addr cnt).getD 2 0 * 256
      + (encodeRequest dev fc addr cnt).getD 3 0 = addr ∧
    (encodeRequest dev fc addr cnt).getD 4 0 * 256
      + (encodeRequest dev fc addr cnt).getD 5 0 = cnt := by
  refine ⟨?_, ?_, ?_, ?_, ?_, ?_⟩ <;>
    simp only [encodeRequest, encodePayload, toBytesBE2, modbus_crc,
      List.cons_append, List.nil_append, List.length_cons, List.length_nil,
      List.getD_cons_zero, List.getD_cons_succ] <;>
    omega

/-- Witness for C2 at the source's own configuration:
device 106, function code 4, block 0x0190, count 2. -/
theorem encodeRequest_spec_witness :
    (encodeRequest 106 FUNCTION_CODE START_ADDR NUM_REGISTERS).length = 8 ∧
    (encodeRequest 106 FUNCTION_CODE START_ADDR NUM_REGISTERS).getD 0 0 = 106 :=
  ⟨(encodeRequest_spec 106 FUNCTION_CODE START_ADDR NUM_REGISTERS
      (by norm_num) (by norm_num [FUNCTION_CODE])
      (by norm_num [START_ADDR]) (by norm_num [NUM_REGISTERS])).2.1,
   (encodeRequest_spec 106 FUNCTION_CODE START_ADDR NUM_REGISTERS
      (by norm_num) (by norm_num [FUNCTION_CODE])
      (by norm_num [START_ADDR]) (by norm_num [NUM_REGISTERS])).2.2.1⟩

/-- The response-processing branch of `read_modbus_data`, for the fixed
expected count of 2 registers: `ser.read(9)` yields `response`; if
`len(response) >= 9` the registers are the big-endian pairs at byte
offsets 3-4 and 5-6 (`response[3:7]`), else the result is no data. -/
def decodeResponse (response : List Nat) : Option (Nat × Nat) :=
  if 9 ≤ response.length then
    some (response.getD 3 0 * 256 + response.getD 4 0,
          response.getD 5 0 * 256 + response.getD 6 0)
  else
    none

/-- C3. `decodeResponse` returns no data exactly when the received
length is below 9; on a frame of at least 9 bytes it returns the two
registers read big-endian from offsets 3-4 and 5-6; and the result on
full frames depends only on bytes 3 through 6 — in particular the
trailing checksum bytes are never verified and never cause rejection. -/
theorem decodeResponse_spec (resp : List Nat) :
    (resp.length < 9 → decodeResponse resp = none) ∧
    (9 ≤ resp.length →
      decodeResponse resp
        = some (resp.getD 3 0 * 256 + resp.getD 4 0,
                resp.getD 5 0 * 256 + resp.getD 6 0)) ∧
    (decodeResponse resp = none ↔ resp.length < 9) ∧
    (∀ resp2 : List Nat, 9 ≤ resp.length → 9 ≤ resp2.length →
      (∀ i, 3 ≤ i → i ≤ 6 → resp.getD i 0 = resp2.getD i 0) →
      decodeResponse resp = decodeResponse resp2) := by
  refine ⟨?_, ?_, ?_, ?_⟩
  · intro h
    simp [decodeResponse, Nat.not_le.mpr h]
  · intro h
    simp [decodeResponse, h]
  · constructor
    · intro h
      by_contra hlen
      simp [decodeResponse, Nat.not_lt.mp (by omega : ¬ resp.length < 9)] at h
    · intro h
      simp [decodeResponse, Nat.not_le.mpr h]
  · intro resp2 h1 h2 hagree
    simp only [decodeResponse, if_pos h1, if_pos h2,
      hagree 3 (by omega) (by omega), hagree 4 (by omega) (by omega),
      hagree 5 (by omega) (by omega), hagree 6 (by omega) (by omega)]

/-- Witness for C3: the short frame `[106, 4, 2]` decodes to no data,
and the 9-byte frame `[106, 4, 4, 0, 250, 17, 198, 0, 0]` decodes to
registers 250 and 4550 (0x00FA and 0x11C6). -/
theorem decodeResponse_spec_witness :
    decodeResponse [106, 4, 2] = none ∧
    decodeResponse [106, 4, 4, 0, 250, 17, 198, 0, 0]
      = some (0 * 256 + 250, 17 * 256 + 198) :=
  ⟨(decodeResponse_spec [106, 4, 2]).1 (by norm_num),
   (decodeResponse_spec [106, 4, 4, 0, 250, 17, 198, 0, 0]).2.1 (by norm_num)⟩

/-- `temperature = temp_raw / 10.0` in `read_modbus_data`. -/
def toTemperature (raw : Nat) : Rat := (raw : Rat) / 10

/-- `humidity = humid_raw / 100.0` in `read_modbus_data`. -/
def toHumidity (raw : Nat) : Rat := (raw : Rat) / 100

/-- C10. The unit conversions are `raw / 10` and `raw / 100`, total pure
functions with `toTemperature 250 = 25` and `toHumidity 4550 = 45.5`
(i.e. `91/2`), and both are strictly monotone in the raw input. -/
theorem conversions_spec :
    toTemperature 250 = 25 ∧ toHumidity 4550 = 91 / 2 ∧
    ∀ a b : Nat, a < b →
      toTemperature a < toTemperature b ∧ toHumidity a < toHumidity b := by
  refine ⟨by norm_num [toTemperature], by norm_num [toHumidity], ?_⟩
  intro a b hab
  have h : (a : Rat) < (b : Rat) := by exact_mod_cast hab
  constructor
  · unfold toTemperature
    exact (div_lt_div_iff_of_pos_right (by norm_num)).mpr h
  · unfold toHumidity
    exact (div_lt_div_iff_of_pos_right (by norm_num)).mpr h

/-- Witness for C10's monotonicity hypothesis at `100 < 200`. -/
theorem conversions_spec_witness :
    toTemperature 100 < toTemperature 200 ∧ toHumidity 100 < toHumidity 200 :=
  conversions_spec.2.2 100 200 (by norm_num)

/-- The result of a successful `read_modbus_data` call: the returned
tuple `(device_id, temperature, humidity)`. -/
structure Reading where
  deviceId : Nat
  temperature : Rat
  humidity : Rat
deriving DecidableEq, Repr

/-- `read_modbus_data(ser, device_id)` given the bytes the transport
returns for the 9-byte read.  The ambient clock at poll completion is
passed as `_now`; the source never reads the clock here, which shows up
as this parameter being unused. -/
def readModbusData (_now : Nat) (response : List Nat) (device_id : Nat) :
    Option Reading :=
  match decodeResponse response with
  | some (temp_raw, humid_raw) =>
      some ⟨device_id, toTemperature temp_raw, toHumidity humid_raw⟩
  | none => none

/-- The device loop of one scheduler cycle in `main`: for each device id
in order, poll it (the transport's response bytes for device `d` are
`responses d`), append the result when it is a reading, and sleep the
inter-device pause unconditionally.  Returns the collected cycle and the
number of inter-device pauses taken. -/
def pollCycle (now : Nat) (responses : Nat → List Nat) :
    List Nat → List Reading × Nat
  | [] => ([], 0)
  | d :: ds =>
    let rest := pollCycle now responses ds
    match readModbusData now (responses d) d with
    | some r => (r :: rest.1, rest.2 + 1)
    | none => (rest.1, rest.2 + 1)

/-- One InfluxDB point as built by `write_batch_to_influxdb`:
measurement name, `device_id` tag, `value` field, timestamp. -/
structure Point where
  measurement : String
  device_id : String
  value : Rat
  time : Nat
deriving DecidableEq, Repr

/-- The two points built for one reading: a `temperature` point and a
`humidity` point, both tagged `modbus_<device_id>` and stamped with the
batch timestamp. -/
def pointsFor (timestamp : Nat) (r : Reading) : List Point :=
  [⟨"temperature", "modbus_" ++ toString r.deviceId, r.temperature, timestamp⟩,
   ⟨"humidity", "modbus_" ++ toString r.deviceId, r.humidity, timestamp⟩]

/-- The `points` list accumulated by the loop in
`write_batch_to_influxdb`: two points per reading, in reading order. -/
def buildPoints (timestamp : Nat) : List Reading → List Point
  | [] => []
  | r :: rest => pointsFor timestamp r ++ buildPoints timestamp rest

/-- `write_batch_to_influxdb(sensor_data)`.  `now` is the clock at the
`datetime.utcnow()` call (one timestamp per forward call); `sinkWrite`
is `write_api.write`, which may fail.  The result carries the printed
lines and the list of batch write calls issued; the outer `Except`
models an exception escaping the function — the `try/except` makes the
function always return normally. -/
def write_batch_to_influxdb (now : Nat)
    (sinkWrite : List Point → Except String Unit)
    (sensor_data : List Reading) :
    Except String (List String × List (List Point)) :=
  if sensor_data.isEmpty then
    .ok (["No sensor data to write to InfluxDB"], [])
  else
    let points := buildPoints now sensor_data
    match sinkWrite points with
    | .ok _ =>
        .ok (["Data for " ++ toString sensor_data.length
                ++ " devices written to InfluxDB successfully"], [points])
    | .error e =>
        .ok (["Failed to write batch data to InfluxDB: " ++ e], [points])

/-- Whether a Python call returned normally (did not raise). -/
def returnsNormally {α : Type} : Except String α → Bool
  | .ok _ => true
  | .error _ => false

/-- The printed lines of a normally-returning
`write_batch_to_influxdb` call. -/
def printedLines : Except String (List String × List (List Point)) → List String
  | .ok (logs, _) => logs
  | .error _ => []

/-- The batch write calls issued by a `write_batch_to_influxdb` call. -/
def batchCalls : Except String (List String × List (List Point)) → List (List Point)
  | .ok (_, calls) => calls
  | .error _ => []

/-- The body of one `while True` iteration of `main` after the device
loop: write the batch only when the cycle is non-empty; an exception
escaping `write_batch_to_influxdb` would propagate as `.error` and end
the loop. -/
def schedulerCycle (now : Nat) (responses : Nat → List Nat)
    (sinkWrite : List Point → Except String Unit) :
    Except String (List Reading × List String × List (List Point)) :=
  let cycle := (pollCycle now responses DEVICE_IDS).1
  if cycle.isEmpty then .ok (cycle, [], [])
  else
    match write_batch_to_influxdb now sinkWrite cycle with
    | .ok (logs, calls) => .ok (cycle, logs, calls)
    | .error e => .error e

/-- C4. In every scheduler cycle the devices are polled one by one in
list order; a poll yielding no data adds no reading and the cycle
continues with the remaining devices, so the cycle is exactly the list
of readings of the responding devices in poll order (`filterMap`), and
the inter-device pause is taken once per device regardless of outcome.
Totality of `pollCycle` is the "nothing is raised past the loop" part. -/
theorem pollCycle_spec (now : Nat) (responses : Nat → List Nat)
    (devices : List Nat) :
    (pollCycle now responses devices).1
      = devices.filterMap (fun d => readModbusData now (responses d) d) ∧
    (pollCycle now responses devices).2 = devices.length := by
  induction devices with
  | nil => exact ⟨rfl, rfl⟩
  | cons d ds ih =>
    cases hres : readModbusData now (responses d) d with
    | some r =>
        refine ⟨?_, ?_⟩ <;>
          simp [pollCycle, hres, List.filterMap_cons, ih.1, ih.2]
    | none =>
        refine ⟨?_, ?_⟩ <;>
          simp [pollCycle, hres, List.filterMap_cons, ih.1, ih.2]

lemma buildPoints_length (ts : Nat) (data : List Reading) :
    (buildPoints ts data).length = 2 * data.length := by
  induction data with
  | nil => rfl
  | cons r rest ih => simp [buildPoints, pointsFor, ih]; ring

lemma buildPoints_time (ts : Nat) (data : List Reading) :
    ∀ p ∈ buildPoints ts data, p.time = ts := by
  induction data with
  | nil => intro p hp; simp [buildPoints] at hp
  | cons r rest ih =>
    intro p hp
    simp only [buildPoints, pointsFor, List.mem_append, List.mem_cons,
      List.not_mem_nil, or_false] at hp
    rcases hp with (hp | hp) | hp
    · rw [hp]
    · rw [hp]
    · exact ih p hp

lemma buildPoints_count_temperature (ts : Nat) (data : List Reading) :
    (buildPoints ts data).countP (fun p => p.measurement = "temperature")
      = data.length := by
  induction data with
  | nil => rfl
  | cons r rest ih =>
    simp [buildPoints, pointsFor, List.countP_append, List.countP_cons, ih]

lemma buildPoints_count_humidity (ts : Nat) (data : List Reading) :
    (buildPoints ts data).countP (fun p => p.measurement = "humidity")
      = data.length := by
  induction data with
  | nil => rfl
  | cons r rest ih =>
    simp [buildPoints, pointsFor, List.countP_append, List.countP_cons, ih]

lemma buildPoints_mem (ts : Nat) (data : List Reading) :
    ∀ r ∈ data,
      (⟨"temperature", "modbus_" ++ toString r.deviceId, r.temperature, ts⟩
        : Point) ∈ buildPoints ts data ∧
      (⟨"humidity", "modbus_" ++ toString r.deviceId, r.humidity, ts⟩
        : Point) ∈ buildPoints ts data := by
  induction data with
  | nil => intro r hr; simp at hr
  | cons x rest ih =>
    intro r hr
    rcases List.mem_cons.mp hr with hr | hr
    · subst hr
      constructor <;> simp [buildPoints, pointsFor]
    · have := ih r hr
      constructor <;>
        simp [buildPoints, List.mem_append, this.1, this.2]

/-- C6. For a non-empty cycle of `n` readings, the forwarder builds
exactly `2 n` points — per reading one `temperature` point and one
`humidity` point, tagged `modbus_<device id>` and carrying the reading's
value — all sharing the single timestamp captured once per call, and it
submits them to the sink in exactly one batch write call. -/
theorem write_batch_points_spec (now : Nat)
    (sink : List Point → Except String Unit)
    (data : List Reading) (hne : data ≠ []) :
    (buildPoints now data).length = 2 * data.length ∧
    (∀ p ∈ buildPoints now data, p.time = now) ∧
    (buildPoints now data).countP (fun p => p.measurement = "temperature")
      = data.length ∧
    (buildPoints now data).countP (fun p => p.measurement = "humidity")
      = data.length ∧
    (∀ r ∈ data,
      (⟨"temperature", "modbus_" ++ toString r.deviceId, r.temperature, now⟩
        : Point) ∈ buildPoints now data ∧
      (⟨"humidity", "modbus_" ++ toString r.deviceId, r.humidity, now⟩
        : Point) ∈ buildPoints now data) ∧
    batchCalls (write_batch_to_influxdb now sink data)
      = [buildPoints now data] := by
  refine ⟨buildPoints_length now data, buildPoints_time now data,
    buildPoints_count_temperature now data,
    buildPoints_count_humidity now data,
    buildPoints_mem now data, ?_⟩
  have hempty : data.isEmpty = false := by
    cases data with
    | nil => exact absurd rfl hne
    | cons x xs => rfl
  unfold write_batch_to_influxdb
  rw [hempty]
  simp only [Bool.false_eq_true, if_false]
  cases hs : sink (buildPoints now data) <;> simp [batchCalls, hs]

/-- Witness for C6 at a one-reading cycle. -/
theorem write_batch_points_spec_witness :
    (buildPoints 7 [⟨106, 25, 91 / 2⟩]).length
      = 2 * ([⟨106, 25, 91 / 2⟩] : List Reading).length ∧
    batchCalls
      (write_batch_to_influxdb 7 (fun _ => Except.ok ()) [⟨106, 25, 91 / 2⟩])
      = [buildPoints 7 [⟨106, 25, 91 / 2⟩]] :=
  ⟨(write_batch_points_spec 7 (fun _ => Except.ok ()) [⟨106, 25, 91 / 2⟩]
      (List.cons_ne_nil _ _)).1,
   (write_batch_points_spec 7 (fun _ => Except.ok ()) [⟨106, 25, 91 / 2⟩]
      (List.cons_ne_nil _ _)).2.2.2.2.2⟩

lemma write_batch_returnsNormally (now : Nat)
    (sink : List Point → Except String Unit) (data : List Reading) :
    returnsNormally (write_batch_to_influxdb now sink data) = true := by
  unfold write_batch_to_influxdb
  cases data with
  | nil => rfl
  | cons r rest =>
    simp only [List.isEmpty_cons, Bool.false_eq_true, if_false]
    cases sink (buildPoints now (r :: rest)) <;> rfl

/-- C5. If the sink's batch write fails, `write_batch_to_influxdb`
catches the failure, prints a report, and returns normally with the one
failed attempt as its only sink call (no buffering, no retry), and the
scheduler iteration never ends in a propagated exception (for any sink
behaviour), so the next cycle begins on schedule. -/
theorem write_batch_sink_failure (now : Nat)
    (sink : List Point → Except String Unit)
    (data : List Reading) (e : String) (hne : data ≠ [])
    (hfail : sink (buildPoints now data) = .error e) :
    write_batch_to_influxdb now sink data
      = .ok (["Failed to write batch data to InfluxDB: " ++ e],
             [buildPoints now data]) ∧
    (∀ (now2 : Nat) (responses : Nat → List Nat)
       (sink2 : List Point → Except String Unit),
      returnsNormally (schedulerCycle now2 responses sink2) = true) := by
  constructor
  · have hempty : data.isEmpty = false := by
      cases data with
      | nil => exact absurd rfl hne
      | cons x xs => rfl
    unfold write_batch_to_influxdb
    rw [hempty]
    simp only [Bool.false_eq_true, if_false, hfail]
  · intro now2 responses sink2
    unfold schedulerCycle
    by_cases hc : ((pollCycle now2 responses DEVICE_IDS).1).isEmpty
    · simp [hc, returnsNormally]
    · simp only [hc, Bool.false_eq_true, if_false]
      have hw := write_batch_returnsNormally now2 sink2
        (pollCycle now2 responses DEVICE_IDS).1
      cases hres : write_batch_to_influxdb now2 sink2
          (pollCycle now2 responses DEVICE_IDS).1 with
      | ok out => cases out; rfl
      | error err => rw [hres] at hw; simp [returnsNormally] at hw

/-- Witness for C5: a sink that always refuses the connection, on a
one-reading cycle. -/
theorem write_batch_sink_failure_witness :
    write_batch_to_influxdb 3 (fun _ => Except.error "connection refused")
        [⟨106, 25, 91 / 2⟩]
      = .ok (["Failed to write batch data to InfluxDB: connection refused"],
             [buildPoints 3 [⟨106, 25, 91 / 2⟩]]) :=
  (write_batch_sink_failure 3 (fun _ => Except.error "connection refused")
    [⟨106, 25, 91 / 2⟩] "connection refused"
    (List.cons_ne_nil _ _) rfl).1

/-- C9 counterexample: on the empty cycle with a healthy sink, the
forwarder does print a line ("No sensor data to write to InfluxDB"), so
"logs nothing / produces no output of any kind" is false. -/
theorem write_batch_empty_logs_counterexample :
    printedLines
      (write_batch_to_influxdb 0 (fun _ => Except.ok ()) []) ≠ [] := by
  simp [write_batch_to_influxdb, printedLines]

/-- C9 amended. On an empty cycle the forwarder makes no sink call and
returns normally, but it does print exactly the notice
"No sensor data to write to InfluxDB". -/
theorem write_batch_empty_spec (now : Nat)
    (sink : List Point → Except String Unit) :
    write_batch_to_influxdb now sink []
      = .ok (["No sensor data to write to InfluxDB"], []) := rfl

/-- A concrete well-formed 9-byte response frame: device 106, function
code 4, byte count 4, registers 0x00FA (250) and 0x11C6 (4550), then two
checksum bytes. -/
def resp9 : List Nat := [106, 4, 4, 0, 250, 17, 198, 0, 0]

/-- C8 counterexample: the value returned by a successful poll is
identical at two different poll-completion times and equals a reading of
exactly three components (device id, temperature, humidity) — it carries
no capture timestamp, so "returns a Reading that contains ... a capture
timestamp stamped with the current time at poll completion" is false. -/
theorem readModbusData_no_timestamp_counterexample :
    readModbusData 0 resp9 106 = readModbusData 987654321 resp9 106 ∧
    readModbusData 0 resp9 106 = some ⟨106, 25, 91 / 2⟩ := by
  constructor
  · rfl
  · norm_num [readModbusData, decodeResponse, resp9, toTemperature,
      toHumidity]

/-- C8 amended. On a successful poll (response of at least the expected
9 bytes) the poller converts the two registers to physical units and
returns a reading containing the device id, the temperature and the
humidity; no capture timestamp is part of the reading (the result is
the same at every poll-completion time) — the timestamp is captured
later, once per batch, by the forwarder. -/
theorem readModbusData_success_spec (now : Nat) (resp : List Nat)
    (dev : Nat) (h : 9 ≤ resp.length) :
    readModbusData now resp dev
      = some ⟨dev, toTemperature (resp.getD 3 0 * 256 + resp.getD 4 0),
                   toHumidity (resp.getD 5 0 * 256 + resp.getD 6 0)⟩ ∧
    (∀ now2 : Nat, readModbusData now2 resp dev = readModbusData now resp dev) := by
  refine ⟨?_, fun _ => rfl⟩
  unfold readModbusData decodeResponse
  rw [if_pos h]

/-- Witness for C8's amended theorem at the concrete frame `resp9`. -/
theorem readModbusData_success_spec_witness :
    readModbusData 42 resp9 106
      = some ⟨106, toTemperature (resp9.getD 3 0 * 256 + resp9.getD 4 0),
                   toHumidity (resp9.getD 5 0 * 256 + resp9.getD 6 0)⟩ :=
  (readModbusData_success_spec 42 resp9 106 (by norm_num [resp9])).1

/-- How the `try`/`except` clauses around the polling loop of `main`
end the process: the way the loop was left. -/
inductive RunEnd where
  /-- `KeyboardInterrupt`: the external interrupt signal. -/
  | interrupted
  /-- `serial.SerialException`: the serial port could not be opened
  (or failed); carries the exception message. -/
  | serialError (msg : String)
  /-- any other `Exception`; carries the message. -/
  | otherError (msg : String)
deriving DecidableEq, Repr

/-- The process exit status and the lines printed by the matching
`except` handler of `main`.  Every handler only prints and returns, and
the script never calls `sys.exit`, so every path ends the process with
status 0. -/
def mainExit : RunEnd → Nat × List String
  | .interrupted => (0, ["Monitoring stopped by user."])
  | .serialError e =>
      (0, ["Serial port error: " ++ e,
           "Please check if port /dev/ttyUSB0 exists and is available."])
  | .otherError e => (0, ["Error: " ++ e])

/-- C7 counterexample: when the serial port open fails, `main` catches
`serial.SerialException`, prints the report and returns, and the process
exits with status 0 — not the non-zero/abnormal status the claim
states. -/
theorem mainExit_serial_counterexample :
    (mainExit (RunEnd.serialError "could not open port /dev/ttyUSB0")).1
      = 0 := rfl

/-- C7 amended. When the transport cannot be acquired at startup the
failure is reported (the serial-error notice is printed) and the process
terminates, but with status 0, the same clean status as the interrupt
path, which prints its shutdown notice and also exits with status 0. -/
theorem mainExit_spec (e : String) :
    mainExit (RunEnd.serialError e)
      = (0, ["Serial port error: " ++ e,
             "Please check if port /dev/ttyUSB0 exists and is available."]) ∧
    mainExit RunEnd.interrupted = (0, ["Monitoring stopped by user."]) :=
  ⟨rfl, rfl⟩

end ReadModbus
